import Mathlib

/-
  Verification of the 12-seat werewolf scenario engine.

  The definitions below are a shallow embedding of the Python engine
  (app.py, class MultiCharacterEngine and the module-level voting handler).
  State mutation is modelled by explicit state passing; every call to the
  random module is modelled by an explicit oracle argument (a natural number
  used as an index, or a boolean coin), so that theorems quantify over all
  possible random outcomes.  Dictionary-backed session lookup is abstracted
  away: each operation takes the ScenarioState directly.
-/

set_option maxHeartbeats 1000000

/-- Embeds the GamePlayer dataclass: one seat of the scenario. -/
structure GamePlayer where
  character_id : String
  character_name : String
  character_avatar : String
  role : String
  is_alive : Bool := true
  vote_target : Option String := none
deriving Repr, DecidableEq

instance : Inhabited GamePlayer := ⟨⟨"", "", "", "", true, none⟩⟩

/-- Embeds one entry of game_state.seer_checks. -/
structure SeerCheck where
  target : String
  result : String
  night : Nat
deriving Repr, DecidableEq

/-- Embeds one entry of scenario_log.  The Python log entries are dicts with
    heterogeneous fields; the fields used by the engine logic (phase, round,
    deaths) are kept, the free-text payload is collapsed into action. -/
structure LogEntry where
  phase : String
  round : Nat
  action : String := ""
  deaths : List String := []
deriving Repr, DecidableEq

/-- Embeds the scenario.game_state dict created in create_werewolf_scenario.
    The witch_potions sub-dict becomes the two boolean fields. -/
structure GameState where
  sheriff : Option String := none
  sheriff_candidates : List String := []
  witch_antidote : Bool := true
  witch_poison : Bool := true
  killed_tonight : Option String := none
  saved_tonight : Option String := none
  poisoned_tonight : Option String := none
  seer_checks : List SeerCheck := []
  hunter_can_shoot : Bool := true
  idiot_revealed : Bool := false
deriving Repr, DecidableEq

/-- Embeds the ScenarioState dataclass together with the game_state attribute
    attached to it by create_werewolf_scenario. -/
structure ScenarioState where
  scenario_type : String
  phase : String
  round_count : Nat := 1
  players : List GamePlayer := []
  eliminated_players : List String := []
  scenario_log : List LogEntry := []
  is_active : Bool := true
  game_state : GameState := {}
deriving Repr, DecidableEq

/-- Python truthiness of an optional string (None and the empty string are
    falsy): used wherever the engine writes if some_name. -/
def truthy : Option String → Bool
  | none => false
  | some s => !s.isEmpty

/-- Embeds random.choice lst: the oracle r selects the element.  The guard
    sites in the engine only call it on nonempty lists, so the default d is
    never the result there. -/
def choice {α : Type} (l : List α) (r : Nat) (d : α) : α :=
  l.getD (r % l.length) d

theorem choice_mem {α : Type} {l : List α} (r : Nat) (d : α) (h : l ≠ []) :
    choice l r d ∈ l := by
  have hlen : 0 < l.length := List.length_pos.mpr h
  have hlt : r % l.length < l.length := Nat.mod_lt _ hlen
  simp [choice, List.getD_eq_getElem?_getD, List.getElem?_eq_getElem hlt]

/-- Embeds get_alive_players: the living seats, in seat order. -/
def get_alive_players (s : ScenarioState) : List GamePlayer :=
  s.players.filter (fun p => p.is_alive)

/-- Embeds get_players_by_role: living seats carrying the given role. -/
def get_players_by_role (s : ScenarioState) (role : String) : List GamePlayer :=
  s.players.filter (fun p => p.role = role && p.is_alive)

/-- Embeds MultiCharacterEngine._advance_werewolf_phase. -/
def _advance_werewolf_phase (s : ScenarioState) : Bool × ScenarioState :=
  if s.phase = "first_night" then
    (true, { s with phase := "first_day", round_count := 1 })
  else if s.phase = "first_day" then
    (true, { s with phase := "sheriff_election" })
  else if s.phase = "sheriff_election" then
    (true, { s with phase := "day_discussion" })
  else if s.phase = "day_discussion" then
    (true, { s with phase := "voting" })
  else if s.phase = "voting" then
    (true, { s with phase := "night", round_count := s.round_count + 1 })
  else if s.phase = "night" then
    (true, { s with phase := "day_discussion" })
  else
    (false, s)

/-- Embeds MultiCharacterEngine.advance_phase (the session-dict lookup is
    abstracted away; the state is passed directly). -/
def advance_phase (s : ScenarioState) : Bool × ScenarioState :=
  if s.scenario_type = "werewolf" then _advance_werewolf_phase s
  else (false, s)

/-- The four god roles, as listed in check_game_end. -/
def godRoles : List String := ["预言家", "女巫", "猎人", "白痴"]

/-- Embeds MultiCharacterEngine.check_game_end: returns the optional win
    message together with the (possibly deactivated) state. -/
def check_game_end (s : ScenarioState) : Option String × ScenarioState :=
  if s.scenario_type = "werewolf" then
    let alive_players := get_alive_players s
    let werewolves := alive_players.filter (fun p => p.role = "狼人")
    let good_players := alive_players.filter (fun p => p.role ≠ "狼人")
    if werewolves.isEmpty then
      (some "🎉 好人阵营获胜！所有狼人已被淘汰。", { s with is_active := false })
    else if good_players.length ≤ werewolves.length then
      (some "🐺 狼人阵营获胜！狼人数量达到或超过好人数量。", { s with is_active := false })
    else
      let gods := alive_players.filter (fun p => p.role ∈ godRoles)
      if gods.isEmpty && decide (0 < alive_players.length) then
        (some "🐺 狼人阵营获胜！所有神职已被淘汰（屠神胜利）。", { s with is_active := false })
      else
        let civilians := alive_players.filter (fun p => p.role = "平民")
        if civilians.isEmpty && decide (0 < alive_players.length) &&
            decide (0 < werewolves.length) then
          (some "🐺 狼人阵营获胜！所有平民已被淘汰（屠民胜利）。", { s with is_active := false })
        else
          (none, s)
  else
    (none, s)

/-- Embeds the slice of CharacterProfile that create_werewolf_scenario reads. -/
structure CharacterProfile where
  character_id : String
  name : String
  avatar : String
deriving Repr, DecidableEq

/-- The fixed 12-role deck built in create_werewolf_scenario. -/
def standard_roles : List String :=
  ["狼人", "狼人", "狼人", "狼人", "预言家", "女巫", "猎人", "白痴",
   "平民", "平民", "平民", "平民"]

/-- Embeds the resolution loop of create_werewolf_scenario: each character
    id is resolved through the persona collaborator and becomes a role-less
    seat; an unresolvable id aborts the whole creation. -/
def resolvePlayers (resolve : String → Option CharacterProfile) :
    List String → Option (List GamePlayer)
  | [] => some []
  | cid :: rest =>
    match resolve cid with
    | none => none
    | some c =>
      match resolvePlayers resolve rest with
      | none => none
      | some ps =>
        some ({ character_id := c.character_id, character_name := c.name,
                character_avatar := c.avatar, role := "" } :: ps)

/-- Embeds MultiCharacterEngine.create_werewolf_scenario.  The persona
    collaborator becomes the resolve parameter and the random.shuffle call
    becomes the shuffled_roles parameter (constrained to a permutation of
    standard_roles in the theorems). -/
def create_werewolf_scenario (resolve : String → Option CharacterProfile)
    (shuffled_roles : List String) (character_ids : List String) :
    Option ScenarioState :=
  if character_ids.length ≠ 12 then none
  else
    match resolvePlayers resolve character_ids with
    | none => none
    | some players =>
      let players := players.zipWith (fun p r => { p with role := r }) shuffled_roles
      some { scenario_type := "werewolf", phase := "first_night",
             round_count := 1, players := players, eliminated_players := [],
             scenario_log := [], is_active := true, game_state := {} }

/-- Oracle for every random draw made during one night resolution. -/
structure NightOracle where
  wolfExposed : GamePlayer → Bool
  wolfPickConfirmed : Nat
  wolfPickFallback : Nat
  seerPick : Nat
  witchSaveCoin : Bool
  poisonWolfCoin : Bool
  poisonWolfPick : Nat
  poisonUseCoin : Bool
  poisonPick : Nat

/-- Embeds MultiCharacterEngine._choose_werewolf_target.  The per-candidate
    random() < 0.3 exposure coin is o.wolfExposed. -/
def _choose_werewolf_target (good_players : List GamePlayer) (o : NightOracle) :
    GamePlayer :=
  let confirmed_gods := good_players.filter
    (fun p => decide (p.role ∈ godRoles) && o.wolfExposed p)
  if !confirmed_gods.isEmpty then
    choice confirmed_gods o.wolfPickConfirmed default
  else
    let non_idiot_players := good_players.filter (fun p => p.role ≠ "白痴")
    let pool :=
      if !non_idiot_players.isEmpty && decide (2 < good_players.length) then
        non_idiot_players
      else good_players
    choice pool o.wolfPickFallback default

/-- Embeds MultiCharacterEngine._process_werewolf_kill. -/
def _process_werewolf_kill (o : NightOracle) (s : ScenarioState) : ScenarioState :=
  let werewolves := get_players_by_role s "狼人"
  if werewolves.isEmpty then s
  else
    let good_players := (get_alive_players s).filter (fun p => p.role ≠ "狼人")
    if good_players.isEmpty then s
    else
      let target := _choose_werewolf_target good_players o
      { s with
        game_state :=
          { s.game_state with killed_tonight := some target.character_name },
        scenario_log := s.scenario_log ++
          [{ phase := "werewolf_kill", round := s.round_count,
             action := "狼人选择击杀" ++ target.character_name }] }

/-- Embeds MultiCharacterEngine._choose_seer_target. -/
def _choose_seer_target (other_players : List GamePlayer)
    (checked_names : List String) (o : NightOracle) : GamePlayer :=
  let unchecked_players := other_players.filter
    (fun p => decide (p.character_name ∉ checked_names))
  if !unchecked_players.isEmpty then choice unchecked_players o.seerPick default
  else choice other_players o.seerPick default

/-- Embeds MultiCharacterEngine._process_seer_check. -/
def _process_seer_check (o : NightOracle) (s : ScenarioState) : ScenarioState :=
  match get_players_by_role s "预言家" with
  | [] => s
  | seer :: _ =>
    let other_players := (get_alive_players s).filter
      (fun p => p.character_id ≠ seer.character_id)
    if other_players.isEmpty then s
    else
      let checked_names := s.game_state.seer_checks.map (fun c => c.target)
      let target := _choose_seer_target other_players checked_names o
      let result := if target.role = "狼人" then "狼人" else "好人"
      { s with
        game_state :=
          { s.game_state with seer_checks := s.game_state.seer_checks ++
            [{ target := target.character_name, result := result,
               night := s.round_count }] },
        scenario_log := s.scenario_log ++
          [{ phase := "seer_check", round := s.round_count,
             action := "预言家查验" ++ target.character_name ++ "，结果是" ++ result }] }

/-- Embeds MultiCharacterEngine._choose_poison_target. -/
def _choose_poison_target (o : NightOracle) (s : ScenarioState) :
    Option GamePlayer :=
  let alive_players := get_alive_players s
  let werewolves := alive_players.filter (fun p => p.role = "狼人")
  if !werewolves.isEmpty && o.poisonWolfCoin then
    some (choice werewolves o.poisonWolfPick default)
  else if o.poisonUseCoin then
    let witch := (get_players_by_role s "女巫").headD default
    let killed_tonight := s.game_state.killed_tonight
    let possible_targets := alive_players.filter
      (fun p => p.character_id ≠ witch.character_id &&
        killed_tonight ≠ some p.character_name)
    if !possible_targets.isEmpty then
      some (choice possible_targets o.poisonPick default)
    else none
  else none

/-- Embeds MultiCharacterEngine._process_witch_action.  The probabilistic
    _should_witch_save outcome is the o.witchSaveCoin oracle bit. -/
def _process_witch_action (o : NightOracle) (s : ScenarioState) : ScenarioState :=
  let witches := get_players_by_role s "女巫"
  if witches.isEmpty then s
  else
    let killed_player := s.game_state.killed_tonight
    let has_antidote := s.game_state.witch_antidote
    let has_poison := s.game_state.witch_poison
    let s1 :=
      if truthy killed_player && has_antidote && o.witchSaveCoin then
        { s with
          game_state := { s.game_state with
            saved_tonight := killed_player, witch_antidote := false },
          scenario_log := s.scenario_log ++
            [{ phase := "witch_save", round := s.round_count,
               action := "女巫使用解药救了" ++ killed_player.getD "" }] }
      else s
    if has_poison && s1.game_state.saved_tonight ≠ killed_player then
      match _choose_poison_target o s1 with
      | some poison_target =>
        { s1 with
          game_state := { s1.game_state with
            poisoned_tonight := some poison_target.character_name,
            witch_poison := false },
          scenario_log := s1.scenario_log ++
            [{ phase := "witch_poison", round := s1.round_count,
               action := "女巫使用毒药毒了" ++ poison_target.character_name }] }
      | none => s1
    else s1

/-- Embeds the search-then-mutate idiom next(p for p in players if
    p.character_name == nm) followed by the is_alive check of
    _process_deaths: flips the first seat carrying the name, provided that
    seat is still alive; the boolean reports whether a death happened. -/
def killFirstByName : List GamePlayer → String → List GamePlayer × Bool
  | [], _ => ([], false)
  | p :: rest, nm =>
    if p.character_name = nm then
      if p.is_alive then ({ p with is_alive := false } :: rest, true)
      else (p :: rest, false)
    else
      let r := killFirstByName rest nm
      (p :: r.1, r.2)

/-- Embeds one of the two analogous death blocks of _process_deaths: under
    the guard cond, look the victim up by name, and if that seat is still
    alive mark it dead, append the name to the elimination list and the
    cause line to the running deaths summary. -/
def deathStep (cond : Bool) (nm cause : String)
    (acc : ScenarioState × List String) : ScenarioState × List String :=
  if cond then
    let r := killFirstByName acc.1.players nm
    if r.2 then
      ({ acc.1 with players := r.1,
                    eliminated_players := acc.1.eliminated_players ++ [nm] },
       acc.2 ++ [nm ++ cause])
    else acc
  else acc

/-- Embeds MultiCharacterEngine._process_deaths: the werewolf-kill block
    (guarded by killed being truthy and different from saved), then the
    poison block (guarded by poisoned being truthy), then the summary log
    entry when somebody died. -/
def _process_deaths (s : ScenarioState) : ScenarioState :=
  let killed := s.game_state.killed_tonight
  let saved := s.game_state.saved_tonight
  let poisoned := s.game_state.poisoned_tonight
  let step1 := deathStep (truthy killed && killed ≠ saved) (killed.getD "")
    "被狼人击杀" (s, [])
  let step2 := deathStep (truthy poisoned) (poisoned.getD "") "被女巫毒杀" step1
  if step2.2.isEmpty then step2.1
  else
    { step2.1 with scenario_log := step2.1.scenario_log ++
        [{ phase := "night_result", round := step2.1.round_count,
           deaths := step2.2 }] }

/-- Embeds MultiCharacterEngine.process_night_actions. -/
def process_night_actions (o : NightOracle) (s : ScenarioState) : ScenarioState :=
  if s.phase ≠ "night" && s.phase ≠ "first_night" then s
  else
    let s0 := { s with game_state := { s.game_state with
      killed_tonight := none, saved_tonight := none, poisoned_tonight := none } }
    _process_deaths (_process_witch_action o (_process_seer_check o
      (_process_werewolf_kill o s0)))

/-- Indices of living seats, mirroring iteration over alive player objects
    while keeping the identity of each mutated object as its seat index. -/
def aliveIndices (players : List GamePlayer) : List Nat :=
  (List.range players.length).filter (fun i => (players.getD i default).is_alive)

/-- Oracle for the random draws of the engine-level voting handler. -/
structure VoteOracle where
  elimPick : Nat
  shotPick : Nat

/-- Embeds the MultiCharacterEngine.handle_voting_phase method: a random
    living seat is eliminated, then the hunter and idiot interrupts run. -/
def MultiCharacterEngine.handle_voting_phase (o : VoteOracle)
    (s : ScenarioState) : ScenarioState :=
  let idxs := aliveIndices s.players
  if idxs.isEmpty then s
  else
    let i := choice idxs o.elimPick 0
    let eliminated := s.players.getD i default
    let s1 : ScenarioState :=
      { s with players := s.players.set i { eliminated with is_alive := false },
               eliminated_players :=
                 s.eliminated_players ++ [eliminated.character_name] }
    let s2 : ScenarioState :=
      if eliminated.role = "猎人" && s.game_state.hunter_can_shoot then
        let others := (aliveIndices s1.players).filter
          (fun j => (s1.players.getD j default).character_id ≠ eliminated.character_id)
        if others.isEmpty then s1
        else
          let j := choice others o.shotPick 0
          let shot := s1.players.getD j default
          { s1 with players := s1.players.set j { shot with is_alive := false },
                    eliminated_players :=
                      s1.eliminated_players ++ [shot.character_name],
                    scenario_log := s1.scenario_log ++
                      [{ phase := "hunter_shoot", round := s1.round_count,
                         action := eliminated.character_name ++ "开枪带走" ++
                           shot.character_name }] }
      else if eliminated.role = "白痴" && !s.game_state.idiot_revealed then
        { s1 with players := s1.players.set i { eliminated with is_alive := true },
                  eliminated_players :=
                    s1.eliminated_players.erase eliminated.character_name,
                  game_state := { s1.game_state with idiot_revealed := true },
                  scenario_log := s1.scenario_log ++
                    [{ phase := "idiot_reveal", round := s1.round_count,
                       action := eliminated.character_name }] }
      else s1
    { s2 with scenario_log := s2.scenario_log ++
        [{ phase := "voting_result", round := s2.round_count,
           action := eliminated.character_name }] }

/-- Decidable substring check, embedding the Python expression
    other_player.character_name in response. -/
def containsSub (needle hay : String) : Bool :=
  decide (needle.data <:+: hay.data)

/-- Embeds the vote-parsing loop of the module-level handle_voting_phase:
    the first other seat in alive order whose name occurs in the voter
    statement. -/
def voteFromResponse (alive_players : List GamePlayer) (voter : GamePlayer)
    (response : String) : Option String :=
  (alive_players.find? (fun q => q.character_id ≠ voter.character_id &&
    containsSub q.character_name response)).map (fun q => q.character_name)

/-- Embeds the vote-collection loop of the module-level handle_voting_phase:
    resp idx is the statement generated for the idx-th living seat and
    fallbackPick idx the random draw used when no name is found in it. -/
def castVotes (alive_players : List GamePlayer) (resp : Nat → String)
    (fallbackPick : Nat → Nat) : List String :=
  alive_players.enum.flatMap (fun ip =>
    let response := resp ip.1
    if response.isEmpty then []
    else
      match voteFromResponse alive_players ip.2 response with
      | some t => [t]
      | none =>
        if 1 < alive_players.length then
          let other_players := alive_players.filter
            (fun p => p.character_id ≠ ip.2.character_id)
          [(choice other_players (fallbackPick ip.1) default).character_name]
        else [])

/-- Embeds the search-then-mutate idiom next(p for p in alive_players if
    p.character_name == eliminated_name): flips the first living seat with
    the name. -/
def killFirstAliveByName : List GamePlayer → String → List GamePlayer × Bool
  | [], _ => ([], false)
  | p :: rest, nm =>
    if p.is_alive && p.character_name = nm then
      ({ p with is_alive := false } :: rest, true)
    else
      let r := killFirstAliveByName rest nm
      (p :: r.1, r.2)

/-- Embeds the tally-and-eliminate part of the module-level
    handle_voting_phase (lines 1675 to 1724): one vote is collected per
    living seat with a non-empty statement, votes are tallied per name, the
    maximal names are the tied candidates and tiePick breaks the tie.  The
    subsequent end check and phase advances of the Python handler are the
    separately modelled check_game_end and advance_phase. -/
def handle_voting_phase (resp : Nat → String) (fallbackPick : Nat → Nat)
    (tiePick : Nat) (s : ScenarioState) : ScenarioState :=
  let alive_players := s.players.filter (fun p => p.is_alive)
  let votes := castVotes alive_players resp fallbackPick
  if votes.isEmpty then s
  else
    let candidates := votes.dedup.filter
      (fun n => votes.all (fun m => votes.count m ≤ votes.count n))
    let eliminated_name := choice candidates tiePick ""
    if eliminated_name.isEmpty then s
    else
      let r := killFirstAliveByName s.players eliminated_name
      { s with players := r.1,
               eliminated_players := s.eliminated_players ++ [eliminated_name] }

/-- Embeds MultiCharacterEngine.handle_sheriff_election; the random.sample
    draw of 2 to 4 living candidates is the cands oracle parameter. -/
def handle_sheriff_election (cands : List GamePlayer) (s : ScenarioState) :
    ScenarioState :=
  let gs := { s.game_state with
    sheriff_candidates := cands.map (fun c => c.character_id) }
  { s with game_state := gs,
           scenario_log := s.scenario_log ++
             [{ phase := "sheriff_election_start", round := s.round_count }] }

/-- Embeds MultiCharacterEngine.vote_for_sheriff. -/
def vote_for_sheriff (pick : Nat) (s : ScenarioState) : ScenarioState :=
  let candidates := s.game_state.sheriff_candidates
  if candidates.isEmpty then s
  else
    let sheriff_id := choice candidates pick ""
    let gs := { s.game_state with sheriff := some sheriff_id }
    { s with game_state := gs,
             scenario_log := s.scenario_log ++
               [{ phase := "sheriff_elected", round := s.round_count }] }

/-- Embeds the state effect of MultiCharacterEngine.process_player_message:
    the generated response is appended to the scenario log. -/
def process_player_message (player : GamePlayer) (response : String)
    (s : ScenarioState) : ScenarioState :=
  { s with scenario_log := s.scenario_log ++
      [{ phase := s.phase, round := s.round_count,
         action := player.character_name ++ ":" ++ response }] }

/-- Helper: a nonempty filtered list forces the base list nonempty. -/
theorem filter_ne_nil_of_ne {α : Type} {l : List α} {f : α → Bool}
    (h : l.filter f ≠ []) : l ≠ [] := by
  intro hl
  exact h (by simp [hl])

/-- C1: check_game_end returns a win message exactly when one of the four
    documented conditions holds over the currently alive seats (no living
    werewolves, werewolves at least as many as non-werewolves, no living god
    seat with some seat alive, no living villager with some living werewolf);
    any message deactivates the scenario, the good-team message is returned
    exactly for the first condition, and a none result leaves the state
    untouched. -/
theorem check_game_end_spec (s : ScenarioState) (hk : s.scenario_type = "werewolf") :
    ((check_game_end s).1.isSome ↔
      ((get_alive_players s).filter (fun p => p.role = "狼人") = [] ∨
        ((get_alive_players s).filter (fun p => p.role ≠ "狼人")).length ≤
          ((get_alive_players s).filter (fun p => p.role = "狼人")).length ∨
        ((get_alive_players s).filter (fun p => decide (p.role ∈ godRoles)) = [] ∧
          get_alive_players s ≠ []) ∨
        ((get_alive_players s).filter (fun p => p.role = "平民") = [] ∧
          (get_alive_players s).filter (fun p => p.role = "狼人") ≠ []))) ∧
    (∀ m, (check_game_end s).1 = some m → (check_game_end s).2.is_active = false) ∧
    ((check_game_end s).1 = none → (check_game_end s).2 = s) ∧
    ((check_game_end s).1 = some "🎉 好人阵营获胜！所有狼人已被淘汰。" ↔
      (get_alive_players s).filter (fun p => p.role = "狼人") = []) := by
  simp only [check_game_end, hk, if_true, reduceIte]
  split_ifs with h1 h2 h3 h4
  · simp_all [List.isEmpty_iff]
  · simp_all [List.isEmpty_iff]
  · rw [Bool.and_eq_true, decide_eq_true_eq, List.isEmpty_iff] at h3
    have halive : get_alive_players s ≠ [] := List.ne_nil_of_length_pos h3.2
    simp_all [List.isEmpty_iff]
  · simp only [Bool.and_eq_true, decide_eq_true_eq, List.isEmpty_iff] at h4
    simp_all [List.isEmpty_iff]
  · rw [List.isEmpty_iff] at h1
    simp only [Bool.and_eq_true, decide_eq_true_eq, List.isEmpty_iff] at h3 h4
    have hnd : ¬ (((get_alive_players s).filter (fun p => p.role = "平民") = [] ∧
        (get_alive_players s).filter (fun p => p.role = "狼人") ≠ [])) := by
      rintro ⟨hc, hwne⟩
      have halive : get_alive_players s ≠ [] := filter_ne_nil_of_ne hwne
      exact h4 ⟨⟨hc, List.length_pos.mpr halive⟩, List.length_pos.mpr hwne⟩
    have hng : ¬ (((get_alive_players s).filter
        (fun p => decide (p.role ∈ godRoles)) = [] ∧ get_alive_players s ≠ [])) := by
      rintro ⟨hg, ha⟩
      exact h3 ⟨hg, List.length_pos.mpr ha⟩
    simp_all

/-- Concrete two-seat scenario (one living werewolf, one living villager)
    used to exercise check_game_end. -/
def demoEndState : ScenarioState :=
  { scenario_type := "werewolf", phase := "day_discussion",
    players :=
      [{ character_id := "w1", character_name := "甲", character_avatar := "",
         role := "狼人" },
       { character_id := "v1", character_name := "乙", character_avatar := "",
         role := "平民" }] }

/-- Witness for check_game_end_spec at a concrete scenario where werewolves
    reach parity: the returned state is deactivated. -/
theorem check_game_end_spec_witness :
    (check_game_end demoEndState).2.is_active = false :=
  (check_game_end_spec demoEndState rfl).2.1
    "🐺 狼人阵营获胜！狼人数量达到或超过好人数量。" (by decide)

/-- Inactive werewolf scenario sitting in the voting phase. -/
def inactiveVotingState : ScenarioState :=
  { scenario_type := "werewolf", phase := "voting", round_count := 3,
    is_active := false }

/-- C3 counterexample: on a state with isActive = false, advance_phase still
    returns true and mutates the phase and the round counter, refuting the
    claim that it is a false-returning no-op there. -/
theorem advance_phase_is_active_cex :
    inactiveVotingState.is_active = false ∧
    (advance_phase inactiveVotingState).1 = true ∧
    (advance_phase inactiveVotingState).2.phase = "night" ∧
    (advance_phase inactiveVotingState).2.round_count = 4 := by
  refine ⟨rfl, ?_, ?_, ?_⟩ <;> rfl

/-- Preservation helper: _advance_werewolf_phase never edits the scenario
    type or the activity flag. -/
theorem _advance_werewolf_phase_keeps (s : ScenarioState) :
    (_advance_werewolf_phase s).2.scenario_type = s.scenario_type ∧
    (_advance_werewolf_phase s).2.is_active = s.is_active := by
  unfold _advance_werewolf_phase
  split_ifs <;> exact ⟨rfl, rfl⟩

/-- C3 (amended): advance_phase never consults isActive.  On a state with
    isActive = false it preserves the flag, it returns true (and transitions)
    exactly when the scenario is of werewolf kind and sits in one of the six
    cyclic phases, and only a false return is a no-op. -/
theorem advance_phase_inactive_spec (s : ScenarioState)
    (h : s.is_active = false) :
    (advance_phase s).2.is_active = false ∧
    ((advance_phase s).1 = true ↔ (s.scenario_type = "werewolf" ∧
      s.phase ∈ ["first_night", "first_day", "sheriff_election",
        "day_discussion", "voting", "night"])) ∧
    ((advance_phase s).1 = false → (advance_phase s).2 = s) := by
  unfold advance_phase _advance_werewolf_phase
  split_ifs with h1 h2 h3 h4 h5 h6 h7 <;> simp_all

/-- Witness for the amended C3 theorem at the concrete inactive state. -/
theorem advance_phase_inactive_spec_witness :
    (advance_phase inactiveVotingState).2.is_active = false :=
  (advance_phase_inactive_spec inactiveVotingState rfl).1

/-- Iterated advance_phase, keeping the resulting states. -/
def advanceIter (s : ScenarioState) : Nat → ScenarioState
  | 0 => s
  | n + 1 => (advance_phase (advanceIter s n)).2

/-- The phase trajectory exactly as the specification lists it: FirstNight,
    FirstDay, SheriffElection, then the DayDiscussion, Voting, Night cycle. -/
def specPhaseSeq : Nat → String
  | 0 => "first_night"
  | 1 => "first_day"
  | 2 => "sheriff_election"
  | n + 3 =>
    if n % 3 = 0 then "day_discussion"
    else if n % 3 = 1 then "voting"
    else "night"

/-- The round counter the specification prescribes after n advances: 1 until
    the first Voting phase has been left, then one increment per cycle. -/
def specRound (n : Nat) : Nat := if n ≤ 4 then 1 else 2 + (n - 5) / 3

/-- Invariant carried along the trajectory of a fresh werewolf scenario. -/
theorem advanceIter_invariant (s : ScenarioState)
    (hk : s.scenario_type = "werewolf") (hp : s.phase = "first_night")
    (hr : s.round_count = 1) :
    ∀ n, (advanceIter s n).phase = specPhaseSeq n ∧
      (advanceIter s n).round_count = specRound n ∧
      (advanceIter s n).scenario_type = "werewolf" := by
  intro n
  induction n with
  | zero =>
    exact ⟨by simpa [advanceIter, specPhaseSeq] using hp,
      by simpa [advanceIter, specRound] using hr, hk⟩
  | succ n ih =>
    obtain ⟨h1, h2, h3⟩ := ih
    have hadv : advanceIter s (n + 1) =
        (_advance_werewolf_phase (advanceIter s n)).2 := by
      simp [advanceIter, advance_phase, h3]
    have hty : (advanceIter s (n + 1)).scenario_type = "werewolf" := by
      rw [hadv, (_advance_werewolf_phase_keeps _).1]; exact h3
    rcases n with _ | _ | _ | m
    · have hp0 : (advanceIter s 0).phase = "first_night" := by
        simpa [specPhaseSeq] using h1
      refine ⟨?_, ?_, hty⟩ <;>
        simp [hadv, _advance_werewolf_phase, hp0, specPhaseSeq, specRound]
    · have hp0 : (advanceIter s 1).phase = "first_day" := by
        simpa [specPhaseSeq] using h1
      have hr0 : (advanceIter s 1).round_count = 1 := by
        simpa [specRound] using h2
      refine ⟨?_, ?_, hty⟩ <;>
        simp [hadv, _advance_werewolf_phase, hp0, hr0, specPhaseSeq, specRound]
    · have hp0 : (advanceIter s 2).phase = "sheriff_election" := by
        simpa [specPhaseSeq] using h1
      have hr0 : (advanceIter s 2).round_count = 1 := by
        simpa [specRound] using h2
      refine ⟨?_, ?_, hty⟩ <;>
        simp [hadv, _advance_werewolf_phase, hp0, hr0, specPhaseSeq, specRound]
    · have hm : m % 3 = 0 ∨ m % 3 = 1 ∨ m % 3 = 2 := by omega
      rcases hm with hc | hc | hc
      · have hp0 : (advanceIter s (m + 3)).phase = "day_discussion" := by
          simpa [specPhaseSeq, hc] using h1
        have hmod : (m + 1) % 3 = 1 := by omega
        refine ⟨?_, ?_, hty⟩
        · simp [hadv, _advance_werewolf_phase, hp0, specPhaseSeq, hmod]
        · rw [hadv]
          simp [_advance_werewolf_phase, hp0, h2]
          unfold specRound
          split_ifs <;> omega
      · have hp0 : (advanceIter s (m + 3)).phase = "voting" := by
          simpa [specPhaseSeq, hc] using h1
        have hmod : (m + 1) % 3 = 2 := by omega
        refine ⟨?_, ?_, hty⟩
        · simp [hadv, _advance_werewolf_phase, hp0, specPhaseSeq, hmod, hc]
        · rw [hadv]
          simp [_advance_werewolf_phase, hp0, h2]
          unfold specRound
          split_ifs <;> omega
      · have hp0 : (advanceIter s (m + 3)).phase = "night" := by
          simpa [specPhaseSeq, hc] using h1
        have hmod : (m + 1) % 3 = 0 := by omega
        refine ⟨?_, ?_, hty⟩
        · simp [hadv, _advance_werewolf_phase, hp0, specPhaseSeq, hmod, hc]
        · rw [hadv]
          simp [_advance_werewolf_phase, hp0, h2]
          unfold specRound
          split_ifs <;> omega

/-- C2: starting from a freshly created scenario, n advances land exactly on
    the n-th entry of the spec sequence FirstNight, FirstDay,
    SheriffElection, DayDiscussion, Voting, Night, DayDiscussion, ...; the
    round counter follows specRound, and it grows by one exactly across a
    Voting step and is unchanged across every other step. -/
theorem phase_sequence_spec (s : ScenarioState)
    (hk : s.scenario_type = "werewolf") (hp : s.phase = "first_night")
    (hr : s.round_count = 1) (n : Nat) :
    (advanceIter s n).phase = specPhaseSeq n ∧
    (advanceIter s n).round_count = specRound n ∧
    (advanceIter s (n + 1)).round_count =
      (advanceIter s n).round_count +
        (if (advanceIter s n).phase = "voting" then 1 else 0) := by
  obtain ⟨h1, h2, h3⟩ := advanceIter_invariant s hk hp hr n
  obtain ⟨g1, g2, g3⟩ := advanceIter_invariant s hk hp hr (n + 1)
  refine ⟨h1, h2, ?_⟩
  rw [g2, h2, h1]
  rcases n with _ | _ | _ | m
  · simp [specPhaseSeq, specRound]
  · simp [specPhaseSeq, specRound]
  · simp [specPhaseSeq, specRound]
  · have hm : m % 3 = 0 ∨ m % 3 = 1 ∨ m % 3 = 2 := by omega
    rcases hm with hc | hc | hc <;>
      · simp [specPhaseSeq, hc]
        unfold specRound
        split_ifs <;> omega

/-- Fresh werewolf state used to witness the trajectory theorem. -/
def freshDemoState : ScenarioState :=
  { scenario_type := "werewolf", phase := "first_night" }

/-- Witness for phase_sequence_spec after four advances: the scenario sits in
    the voting phase with round 1 and the next advance bumps the round. -/
theorem phase_sequence_spec_witness :
    (advanceIter freshDemoState 4).phase = specPhaseSeq 4 ∧
    (advanceIter freshDemoState 4).round_count = specRound 4 ∧
    (advanceIter freshDemoState 5).round_count =
      (advanceIter freshDemoState 4).round_count +
        (if (advanceIter freshDemoState 4).phase = "voting" then 1 else 0) :=
  phase_sequence_spec freshDemoState rfl rfl rfl 4

/-- Helper: a fully resolvable id list resolves to a seat list of the same
    length. -/
theorem resolvePlayers_isSome (resolve : String → Option CharacterProfile) :
    ∀ (ids : List String), (∀ cid ∈ ids, (resolve cid).isSome) →
      ∃ ps, resolvePlayers resolve ids = some ps ∧ ps.length = ids.length := by
  intro ids
  induction ids with
  | nil => exact fun _ => ⟨[], rfl, rfl⟩
  | cons cid rest ih =>
    intro h
    obtain ⟨c, hc⟩ := Option.isSome_iff_exists.mp (h cid (by simp))
    obtain ⟨ps, hps, hlen⟩ := ih (fun x hx => h x (by simp [hx]))
    refine ⟨{ character_id := c.character_id, character_name := c.name,
              character_avatar := c.avatar, role := "" } :: ps, ?_, ?_⟩
    · simp [resolvePlayers, hc, hps]
    · simp [hlen]

/-- Helper: zipping fresh seats with a role list of equal length makes the
    role column equal to that role list. -/
theorem map_role_zipWith :
    ∀ (ps : List GamePlayer) (rs : List String), ps.length = rs.length →
      (List.zipWith (fun p r => { p with role := r }) ps rs).map
        (fun p => p.role) = rs
  | [], [], _ => rfl
  | _ :: ps, r :: rs, h => by
    simp only [List.zipWith_cons_cons, List.map_cons]
    exact congrArg (r :: ·) (map_role_zipWith ps rs (by simpa using h))
  | [], _ :: _, h => by simp at h
  | _ :: _, [], h => by simp at h

/-- C4: for any 12 resolvable persona references and any shuffle outcome,
    creation succeeds and yields 12 seats whose role column is a permutation
    of the standard deck (so exactly 4 werewolves, one seer, witch, hunter
    and idiot each, and 4 villagers), in phase first_night at round 1 with
    both witch potions available, the hunter shot unconsumed and the idiot
    not yet revealed. -/
theorem create_werewolf_scenario_spec
    (resolve : String → Option CharacterProfile)
    (shuffled_roles character_ids : List String)
    (hlen : character_ids.length = 12)
    (hres : ∀ cid ∈ character_ids, (resolve cid).isSome)
    (hperm : shuffled_roles.Perm standard_roles) :
    ∃ st, create_werewolf_scenario resolve shuffled_roles character_ids =
        some st ∧
      st.players.length = 12 ∧
      (st.players.map (fun p => p.role)).Perm standard_roles ∧
      (st.players.map (fun p => p.role)).count "狼人" = 4 ∧
      (st.players.map (fun p => p.role)).count "预言家" = 1 ∧
      (st.players.map (fun p => p.role)).count "女巫" = 1 ∧
      (st.players.map (fun p => p.role)).count "猎人" = 1 ∧
      (st.players.map (fun p => p.role)).count "白痴" = 1 ∧
      (st.players.map (fun p => p.role)).count "平民" = 4 ∧
      st.phase = "first_night" ∧ st.round_count = 1 ∧
      st.game_state.witch_antidote = true ∧
      st.game_state.witch_poison = true ∧
      st.game_state.hunter_can_shoot = true ∧
      st.game_state.idiot_revealed = false := by
  obtain ⟨ps, hps, hpslen⟩ := resolvePlayers_isSome resolve character_ids hres
  have hslen : shuffled_roles.length = 12 := by
    simpa [standard_roles] using hperm.length_eq
  have hmap : (List.zipWith (fun p r => { p with role := r }) ps
      shuffled_roles).map (fun p => p.role) = shuffled_roles :=
    map_role_zipWith ps shuffled_roles (by omega)
  refine ⟨{ scenario_type := "werewolf", phase := "first_night",
            round_count := 1,
            players := List.zipWith (fun p r => { p with role := r }) ps
              shuffled_roles,
            eliminated_players := [], scenario_log := [], is_active := true,
            game_state := {} },
    ?_, ?_, ?_, ?_, ?_, ?_, ?_, ?_, ?_, rfl, rfl, rfl, rfl, rfl, rfl⟩
  · simp [create_werewolf_scenario, hlen, hps]
  · have := (List.length_map (List.zipWith (fun p r => { p with role := r })
      ps shuffled_roles) (fun p => p.role))
    rw [hmap] at this
    simp only at this ⊢
    omega
  · simp only
    rw [hmap]; exact hperm
  all_goals simp only
  all_goals rw [hmap, hperm.count_eq]
  · rfl
  · rfl
  · rfl
  · rfl
  · rfl
  · rfl

/-- Twelve demo persona ids. -/
def demoIds : List String :=
  ["p01", "p02", "p03", "p04", "p05", "p06", "p07", "p08", "p09", "p10",
   "p11", "p12"]

/-- Demo persona collaborator resolving every id. -/
def demoResolve : String → Option CharacterProfile :=
  fun cid => some { character_id := cid, name := cid, avatar := "" }

/-- Witness for create_werewolf_scenario_spec on twelve concrete personas
    with the identity shuffle. -/
theorem create_werewolf_scenario_spec_witness :
    ∃ st, create_werewolf_scenario demoResolve standard_roles demoIds =
        some st ∧
      st.players.length = 12 ∧
      (st.players.map (fun p => p.role)).Perm standard_roles ∧
      (st.players.map (fun p => p.role)).count "狼人" = 4 ∧
      (st.players.map (fun p => p.role)).count "预言家" = 1 ∧
      (st.players.map (fun p => p.role)).count "女巫" = 1 ∧
      (st.players.map (fun p => p.role)).count "猎人" = 1 ∧
      (st.players.map (fun p => p.role)).count "白痴" = 1 ∧
      (st.players.map (fun p => p.role)).count "平民" = 4 ∧
      st.phase = "first_night" ∧ st.round_count = 1 ∧
      st.game_state.witch_antidote = true ∧
      st.game_state.witch_poison = true ∧
      st.game_state.hunter_can_shoot = true ∧
      st.game_state.idiot_revealed = false :=
  create_werewolf_scenario_spec demoResolve standard_roles demoIds rfl
    (fun _ _ => rfl) (List.Perm.refl _)

/-- Pointwise form of the death marking: flip the seat when its name
    matches. -/
def killNamed (nm : String) (p : GamePlayer) : GamePlayer :=
  if p.character_name = nm then { p with is_alive := false } else p

theorem killNamed_character_name (nm : String) (p : GamePlayer) :
    (killNamed nm p).character_name = p.character_name := by
  unfold killNamed; split_ifs <;> rfl

/-- When the search fails to kill anyone the list is returned unchanged. -/
theorem killFirstByName_fst_of_false {l : List GamePlayer} {nm : String}
    (h : (killFirstByName l nm).2 = false) : (killFirstByName l nm).1 = l := by
  induction l with
  | nil => rfl
  | cons p rest ih =>
    by_cases hn : p.character_name = nm
    · by_cases ha : p.is_alive = true
      · simp [killFirstByName, hn, ha] at h
      · have ha' : p.is_alive = false := by
          cases hpa : p.is_alive
          · rfl
          · exact absurd hpa ha
        simp [killFirstByName, hn, ha']
    · simp only [killFirstByName, if_neg hn] at h ⊢
      simp [ih h]

/-- Under pairwise distinct seat names, marking the first matching seat dead
    equals the pointwise map. -/
theorem killFirstByName_fst_eq_map {l : List GamePlayer} (nm : String)
    (h : (l.map (fun p => p.character_name)).Nodup) :
    (killFirstByName l nm).1 = l.map (killNamed nm) := by
  induction l with
  | nil => rfl
  | cons p rest ih =>
    simp only [List.map_cons, List.nodup_cons] at h
    obtain ⟨hpn, hrest⟩ := h
    by_cases hn : p.character_name = nm
    · have hmap : rest.map (killNamed nm) = rest := by
        have : ∀ q ∈ rest, killNamed nm q = q := by
          intro q hq
          have : q.character_name ≠ nm := by
            intro hqe
            exact hpn (by
              rw [hn, ← hqe]
              exact List.mem_map_of_mem (fun p => p.character_name) hq)
          simp [killNamed, this]
        rw [List.map_congr_left this]
        simp
      by_cases ha : p.is_alive = true
      · simp [killFirstByName, hn, ha, List.map_cons, killNamed, hmap]
      · have ha' : p.is_alive = false := by
          cases hpa : p.is_alive
          · rfl
          · exact absurd hpa ha
        have hkp : killNamed nm p = p := by
          cases p
          simp_all [killNamed]
        simp [killFirstByName, hn, ha', List.map_cons, hkp, hmap]
    · simp [killFirstByName, hn, List.map_cons, killNamed, ih hrest]

theorem map_name_killNamed (nm : String) (l : List GamePlayer) :
    (l.map (killNamed nm)).map (fun p => p.character_name) =
      l.map (fun p => p.character_name) := by
  rw [List.map_map]
  exact List.map_congr_left (fun p _ => killNamed_character_name nm p)

theorem getD_map_killNamed (nm : String) (l : List GamePlayer) (i : Nat)
    (hi : i < l.length) :
    (l.map (killNamed nm)).getD i default = killNamed nm (l.getD i default) := by
  simp [List.getD_eq_getElem?_getD, List.getElem?_map,
    List.getElem?_eq_getElem hi]

/-- The seat list produced by the first death-application step. -/
def step1Players (s : ScenarioState) : List GamePlayer :=
  if truthy s.game_state.killed_tonight &&
      s.game_state.killed_tonight ≠ s.game_state.saved_tonight then
    s.players.map (killNamed (s.game_state.killed_tonight.getD ""))
  else s.players

/-- The seat list produced by both death-application steps. -/
def step2Players (s : ScenarioState) : List GamePlayer :=
  if truthy s.game_state.poisoned_tonight then
    (step1Players s).map (killNamed (s.game_state.poisoned_tonight.getD ""))
  else step1Players s


theorem deathStep_players (cond : Bool) (nm cause : String)
    (acc : ScenarioState × List String)
    (h : (acc.1.players.map (fun p => p.character_name)).Nodup) :
    (deathStep cond nm cause acc).1.players =
      if cond then acc.1.players.map (killNamed nm) else acc.1.players := by
  unfold deathStep
  by_cases hc : cond = true
  · rw [if_pos hc, if_pos hc]
    by_cases hr : (killFirstByName acc.1.players nm).2 = true
    · rw [if_pos hr]
      exact killFirstByName_fst_eq_map nm h
    · have hr' : (killFirstByName acc.1.players nm).2 = false := by
        cases hvv : (killFirstByName acc.1.players nm).2
        · rfl
        · exact absurd hvv hr
      rw [if_neg hr, ← killFirstByName_fst_eq_map nm h,
        killFirstByName_fst_of_false hr']
  · rw [if_neg hc, if_neg hc]

theorem deathStep_length (cond : Bool) (nm cause : String)
    (acc : ScenarioState × List String)
    (h : (acc.1.players.map (fun p => p.character_name)).Nodup) :
    (deathStep cond nm cause acc).1.players.length = acc.1.players.length := by
  rw [deathStep_players cond nm cause acc h]
  split_ifs <;> simp

theorem deathStep_names (cond : Bool) (nm cause : String)
    (acc : ScenarioState × List String)
    (h : (acc.1.players.map (fun p => p.character_name)).Nodup) :
    (deathStep cond nm cause acc).1.players.map (fun p => p.character_name) =
      acc.1.players.map (fun p => p.character_name) := by
  rw [deathStep_players cond nm cause acc h]
  split_ifs
  · rw [map_name_killNamed]
  · rfl

/-- Under distinct seat names the seats left by _process_deaths are the two
    pointwise kill maps. -/
theorem process_deaths_players (s : ScenarioState)
    (h : (s.players.map (fun p => p.character_name)).Nodup) :
    (_process_deaths s).players = step2Players s := by
  have hplayers : (_process_deaths s).players =
      (deathStep (truthy s.game_state.poisoned_tonight)
        (s.game_state.poisoned_tonight.getD "") "被女巫毒杀"
        (deathStep (truthy s.game_state.killed_tonight &&
            s.game_state.killed_tonight ≠ s.game_state.saved_tonight)
          (s.game_state.killed_tonight.getD "") "被狼人击杀"
          (s, []))).1.players := by
    simp only [_process_deaths]
    split_ifs <;> rfl
  have h1 := deathStep_players (truthy s.game_state.killed_tonight &&
      s.game_state.killed_tonight ≠ s.game_state.saved_tonight)
    (s.game_state.killed_tonight.getD "") "被狼人击杀" (s, []) h
  have hn1 : ((deathStep (truthy s.game_state.killed_tonight &&
      s.game_state.killed_tonight ≠ s.game_state.saved_tonight)
      (s.game_state.killed_tonight.getD "") "被狼人击杀"
      (s, [])).1.players.map (fun p => p.character_name)).Nodup := by
    rw [deathStep_names _ _ _ _ h]
    exact h
  have h2 := deathStep_players (truthy s.game_state.poisoned_tonight)
    (s.game_state.poisoned_tonight.getD "") "被女巫毒杀" _ hn1
  rw [hplayers, h2, h1]
  unfold step2Players step1Players
  rfl

/-- The witch action never edits the seats, never edits killed_tonight, and
    can only set poisoned_tonight in a night where the final saved and
    killed names differ. -/
theorem _process_witch_action_keeps (o : NightOracle) (t : ScenarioState) :
    (_process_witch_action o t).players = t.players ∧
    (_process_witch_action o t).game_state.killed_tonight =
      t.game_state.killed_tonight ∧
    ((_process_witch_action o t).game_state.saved_tonight =
        (_process_witch_action o t).game_state.killed_tonight →
      (_process_witch_action o t).game_state.poisoned_tonight =
        t.game_state.poisoned_tonight) := by
  by_cases hw : (get_players_by_role t "女巫").isEmpty = true
  · simp [_process_witch_action, hw]
  · by_cases hs : (truthy t.game_state.killed_tonight &&
        t.game_state.witch_antidote && o.witchSaveCoin) = true
    · simp [_process_witch_action, hw, hs]
    · by_cases hp : (t.game_state.witch_poison &&
          decide (t.game_state.saved_tonight ≠
            t.game_state.killed_tonight)) = true
      · have hp' := hp
        simp only [Bool.and_eq_true, decide_eq_true_eq] at hp'
        have hne := hp'.2
        cases hct : _choose_poison_target o t with
        | some pt =>
          simp only [_process_witch_action, hw, Bool.false_eq_true, if_false,
            hs, hp, if_true, hct]
          exact ⟨trivial, trivial, fun hcl => absurd hcl hne⟩
        | none =>
          simp only [_process_witch_action, hw, Bool.false_eq_true, if_false,
            hs, hp, if_true, hct]
          simp
      · simp only [_process_witch_action, hw, Bool.false_eq_true, if_false,
          hs, hp]
        simp

theorem killNamed_is_alive (nm : String) (p : GamePlayer) :
    (killNamed nm p).is_alive =
      if p.character_name = nm then false else p.is_alive := by
  unfold killNamed; split_ifs <;> rfl

theorem truthy_some {x : Option String} (h : truthy x = true) :
    x = some (x.getD "") ∧ x.getD "" ≠ "" := by
  cases hx : x with
  | none => rw [hx] at h; simp [truthy] at h
  | some nm =>
    rw [hx] at h
    simp only [truthy, Bool.not_eq_true'] at h
    refine ⟨by simp, ?_⟩
    simp only [Option.getD_some]
    intro hc
    rw [hc] at h
    exact absurd h (by decide)

theorem truthy_of_name {x : Option String} {nm : String} (hx : x = some nm)
    (hnm : nm ≠ "") : truthy x = true := by
  subst hx
  have : nm.isEmpty = false := by
    cases hx2 : nm.isEmpty
    · rfl
    · exact absurd (String.isEmpty_iff nm |>.mp hx2) hnm
  simp [truthy, this]

theorem step1Players_length (s : ScenarioState) :
    (step1Players s).length = s.players.length := by
  unfold step1Players; split_ifs <;> simp

theorem step1Players_getD (s : ScenarioState) (i : Nat)
    (hi : i < s.players.length) :
    (step1Players s).getD i default =
      (if truthy s.game_state.killed_tonight &&
          s.game_state.killed_tonight ≠ s.game_state.saved_tonight then
        killNamed (s.game_state.killed_tonight.getD "")
          (s.players.getD i default)
      else s.players.getD i default) := by
  unfold step1Players
  split_ifs with hc
  · exact getD_map_killNamed _ _ i hi
  · rfl

theorem step2Players_getD (s : ScenarioState) (i : Nat)
    (hi : i < s.players.length) :
    (step2Players s).getD i default =
      (if truthy s.game_state.poisoned_tonight then
        killNamed (s.game_state.poisoned_tonight.getD "")
          ((step1Players s).getD i default)
      else (step1Players s).getD i default) := by
  unfold step2Players
  split_ifs with hc
  · exact getD_map_killNamed _ _ i (by rw [step1Players_length]; exact hi)
  · rfl

/-- C5: under distinct nonempty seat names, after the night death
    application a previously living seat is newly dead exactly when its name
    is the killed name with the save not matching, or its name is the
    poisoned name; and in the saved-kill night (killedTonight equal to
    savedTonight after the witch acted on a night whose poison slot started
    empty) the death application is a complete no-op, so the killed seat
    stays alive, no elimination is appended and no death ledger entry names
    it. -/
theorem process_deaths_spec :
    (∀ (s : ScenarioState),
      (s.players.map (fun p => p.character_name)).Nodup →
      (∀ p ∈ s.players, p.character_name ≠ "") →
      ∀ i, i < s.players.length →
        ((_process_deaths s).players.getD i default).character_name =
          (s.players.getD i default).character_name ∧
        ((s.players.getD i default).is_alive = true →
          (((_process_deaths s).players.getD i default).is_alive = false ↔
            ((s.game_state.killed_tonight =
                some (s.players.getD i default).character_name ∧
              s.game_state.killed_tonight ≠ s.game_state.saved_tonight) ∨
             s.game_state.poisoned_tonight =
                some (s.players.getD i default).character_name)))) ∧
    (∀ (o : NightOracle) (t : ScenarioState),
      t.game_state.poisoned_tonight = none →
      (_process_witch_action o t).game_state.killed_tonight =
        (_process_witch_action o t).game_state.saved_tonight →
      _process_deaths (_process_witch_action o t) = _process_witch_action o t) := by
  constructor
  · intro s hnodup hne i hi
    have hpmem : s.players.getD i default ∈ s.players := by
      simp [List.getD_eq_getElem?_getD, List.getElem?_eq_getElem hi]
    have hpname : (s.players.getD i default).character_name ≠ "" := hne _ hpmem
    rw [process_deaths_players s hnodup, step2Players_getD s i hi,
      step1Players_getD s i hi]
    constructor
    · split_ifs <;> simp [killNamed_character_name]
    · intro halive
      set p := s.players.getD i default with hpdef
      split_ifs with hc2 hc1 hc1
      · have hc1' := hc1
        simp only [Bool.and_eq_true, decide_eq_true_eq] at hc1'
        obtain ⟨hKsome, hkne⟩ := truthy_some hc1'.1
        obtain ⟨hPZsome, hzne⟩ := truthy_some hc2
        by_cases hk : p.character_name = s.game_state.killed_tonight.getD ""
        · refine iff_of_true ?_ (Or.inl ⟨by rw [hKsome, hk], hc1'.2⟩)
          simp [killNamed_is_alive, killNamed_character_name, hk]
        · by_cases hz : p.character_name =
              s.game_state.poisoned_tonight.getD ""
          · refine iff_of_true ?_ (Or.inr (by rw [hPZsome, hz]))
            simp [killNamed_is_alive, killNamed_character_name, hk, hz]
          · refine iff_of_false ?_ ?_
            · simp [killNamed_is_alive, killNamed_character_name, hk, hz,
                halive]
            · rintro (⟨hKp, _⟩ | hPZp)
              · rw [hKsome] at hKp
                exact hk (by simpa using hKp.symm)
              · rw [hPZsome] at hPZp
                exact hz (by simpa using hPZp.symm)
      · obtain ⟨hPZsome, hzne⟩ := truthy_some hc2
        by_cases hz : p.character_name = s.game_state.poisoned_tonight.getD ""
        · refine iff_of_true ?_ (Or.inr (by rw [hPZsome, hz]))
          simp [killNamed_is_alive, killNamed_character_name, hz]
        · refine iff_of_false ?_ ?_
          · simp [killNamed_is_alive, killNamed_character_name, hz, halive]
          · rintro (⟨hKp, hKSV⟩ | hPZp)
            · exact hc1 (by
                simp [truthy_of_name hKp hpname, hKSV])
            · rw [hPZsome] at hPZp
              exact hz (by simpa using hPZp.symm)
      · have hc1' := hc1
        simp only [Bool.and_eq_true, decide_eq_true_eq] at hc1'
        obtain ⟨hKsome, hkne⟩ := truthy_some hc1'.1
        by_cases hk : p.character_name = s.game_state.killed_tonight.getD ""
        · refine iff_of_true ?_ (Or.inl ⟨by rw [hKsome, hk], hc1'.2⟩)
          simp [killNamed_is_alive, hk]
        · refine iff_of_false ?_ ?_
          · simp [killNamed_is_alive, hk, halive]
          · rintro (⟨hKp, _⟩ | hPZp)
            · rw [hKsome] at hKp
              exact hk (by simpa using hKp.symm)
            · exact hc2 (truthy_of_name hPZp hpname)
      · refine iff_of_false ?_ ?_
        · simp [halive]
        · rintro (⟨hKp, hKSV⟩ | hPZp)
          · exact hc1 (by simp [truthy_of_name hKp hpname, hKSV])
          · exact hc2 (truthy_of_name hPZp hpname)
  · intro o t hpz hks
    obtain ⟨hpl, hkill, himp⟩ := _process_witch_action_keeps o t
    have hps : (_process_witch_action o t).game_state.poisoned_tonight =
        none := by
      rw [himp hks.symm]
      exact hpz
    simp [_process_deaths, deathStep, hks, hps, truthy]

/-- Night-end demo state: the werewolves killed seat 甲 and nobody was saved
    or poisoned. -/
def demoNightState : ScenarioState :=
  { scenario_type := "werewolf", phase := "night",
    players :=
      [{ character_id := "a", character_name := "甲", character_avatar := "",
         role := "平民" },
       { character_id := "b", character_name := "乙", character_avatar := "",
         role := "狼人" }],
    game_state := { killed_tonight := some "甲" } }

/-- Witness for process_deaths_spec: on the demo state seat 0 dies exactly
    because it is the unsaved kill target. -/
theorem process_deaths_spec_witness :
    ((_process_deaths demoNightState).players.getD 0 default).is_alive =
      false :=
  ((process_deaths_spec.1 demoNightState (by decide) (by decide) 0
      (by decide)).2 (by decide)).mpr
    (Or.inl ⟨by decide, by decide⟩)

/-- The seer check only appends to seer_checks and the log. -/
theorem _process_seer_check_keeps (o : NightOracle) (t : ScenarioState) :
    (_process_seer_check o t).players = t.players ∧
    (_process_seer_check o t).game_state.killed_tonight =
      t.game_state.killed_tonight ∧
    (_process_seer_check o t).game_state.saved_tonight =
      t.game_state.saved_tonight ∧
    (_process_seer_check o t).game_state.poisoned_tonight =
      t.game_state.poisoned_tonight ∧
    (_process_seer_check o t).game_state.witch_poison =
      t.game_state.witch_poison ∧
    (_process_seer_check o t).game_state.witch_antidote =
      t.game_state.witch_antidote := by
  unfold _process_seer_check
  split
  · exact ⟨rfl, rfl, rfl, rfl, rfl, rfl⟩
  · dsimp only
    split_ifs <;> exact ⟨rfl, rfl, rfl, rfl, rfl, rfl⟩

/-- A night with no kill and no save leaves the witch action inert. -/
theorem _process_witch_action_of_none (o : NightOracle) (t : ScenarioState)
    (hk : t.game_state.killed_tonight = none)
    (hs : t.game_state.saved_tonight = none) :
    _process_witch_action o t = t := by
  by_cases hw : (get_players_by_role t "女巫").isEmpty = true
  · simp [_process_witch_action, hw]
  · simp [_process_witch_action, hw, hk, hs, truthy]

/-- With neither a kill nor a poison pending, the death application is
    inert. -/
theorem _process_deaths_of_none (s : ScenarioState)
    (hk : s.game_state.killed_tonight = none)
    (hpz : s.game_state.poisoned_tonight = none) :
    _process_deaths s = s := by
  simp [_process_deaths, deathStep, hk, hpz, truthy]

/-- C10: the poison decision is skipped whenever saved equals killed, in
    particular on a night with no werewolf kill: with killedTonight and
    savedTonight both none the whole witch action is inert, and running the
    full night resolution with no living werewolf ends with no poisoned seat
    and the poison potion untouched, even when it is still available. -/
theorem witch_poison_skip_spec :
    (∀ (o : NightOracle) (t : ScenarioState),
      t.game_state.killed_tonight = none →
      t.game_state.saved_tonight = none →
      _process_witch_action o t = t) ∧
    (∀ (o : NightOracle) (s : ScenarioState),
      (s.phase = "night" ∨ s.phase = "first_night") →
      get_players_by_role s "狼人" = [] →
      (process_night_actions o s).game_state.poisoned_tonight = none ∧
      (process_night_actions o s).game_state.witch_poison =
        s.game_state.witch_poison) := by
  refine ⟨_process_witch_action_of_none, ?_⟩
  intro o s hphase hwolves
  have hwolf0 : s.players.filter (fun p => p.role = "狼人" && p.is_alive) =
      [] := by
    simpa [get_players_by_role] using hwolves
  have hcond : (s.phase ≠ "night" && s.phase ≠ "first_night") = false := by
    rcases hphase with h | h <;> simp [h]
  have hkill : _process_werewolf_kill o
      { s with game_state := { s.game_state with
          killed_tonight := none, saved_tonight := none,
          poisoned_tonight := none } } =
      { s with game_state := { s.game_state with
          killed_tonight := none, saved_tonight := none,
          poisoned_tonight := none } } := by
    simp [_process_werewolf_kill, get_players_by_role, hwolf0]
  have hseer := _process_seer_check_keeps o
    { s with game_state := { s.game_state with
        killed_tonight := none, saved_tonight := none,
        poisoned_tonight := none } }
  have hwitch := _process_witch_action_of_none o
    (_process_seer_check o
      { s with game_state := { s.game_state with
          killed_tonight := none, saved_tonight := none,
          poisoned_tonight := none } })
    (by rw [hseer.2.1]) (by rw [hseer.2.2.1])
  have hdeath := _process_deaths_of_none
    (_process_seer_check o
      { s with game_state := { s.game_state with
          killed_tonight := none, saved_tonight := none,
          poisoned_tonight := none } })
    (by rw [hseer.2.1]) (by rw [hseer.2.2.2.1])
  have hfinal : process_night_actions o s =
      _process_seer_check o
        { s with game_state := { s.game_state with
            killed_tonight := none, saved_tonight := none,
            poisoned_tonight := none } } := by
    simp only [process_night_actions, hcond, Bool.false_eq_true, if_false]
    rw [hkill, hwitch, hdeath]
  rw [hfinal, hseer.2.2.2.1, hseer.2.2.2.2.1]
  exact ⟨rfl, rfl⟩

/-- Fixed oracle used by concrete night-resolution witnesses. -/
def demoOracle : NightOracle :=
  { wolfExposed := fun _ => false, wolfPickConfirmed := 0,
    wolfPickFallback := 0, seerPick := 0, witchSaveCoin := true,
    poisonWolfCoin := true, poisonWolfPick := 0, poisonUseCoin := true,
    poisonPick := 0 }

/-- Night state with no living werewolf but a living witch holding her
    poison. -/
def demoC10State : ScenarioState :=
  { scenario_type := "werewolf", phase := "night",
    players :=
      [{ character_id := "w", character_name := "巫", character_avatar := "",
         role := "女巫" },
       { character_id := "v", character_name := "民", character_avatar := "",
         role := "平民" },
       { character_id := "d", character_name := "狼", character_avatar := "",
         role := "狼人", is_alive := false }] }

/-- Witness for witch_poison_skip_spec: with every werewolf dead the night
    resolution poisons nobody and keeps the poison available. -/
theorem witch_poison_skip_spec_witness :
    (process_night_actions demoOracle demoC10State).game_state.poisoned_tonight
        = none ∧
    (process_night_actions demoOracle
        demoC10State).game_state.witch_poison =
      demoC10State.game_state.witch_poison :=
  witch_poison_skip_spec.2 demoOracle demoC10State (Or.inl rfl) (by decide)

theorem advance_phase_game_state (s : ScenarioState) :
    (advance_phase s).2.game_state = s.game_state := by
  unfold advance_phase _advance_werewolf_phase
  split_ifs <;> rfl

theorem check_game_end_game_state (s : ScenarioState) :
    (check_game_end s).2.game_state = s.game_state := by
  unfold check_game_end
  dsimp only
  split_ifs <;> rfl

theorem _process_werewolf_kill_potions (o : NightOracle) (s : ScenarioState) :
    (_process_werewolf_kill o s).game_state.witch_antidote =
      s.game_state.witch_antidote ∧
    (_process_werewolf_kill o s).game_state.witch_poison =
      s.game_state.witch_poison := by
  unfold _process_werewolf_kill
  dsimp only
  split_ifs <;> exact ⟨rfl, rfl⟩

theorem _process_witch_action_potions (o : NightOracle) (t : ScenarioState) :
    ((_process_witch_action o t).game_state.witch_antidote = true →
      t.game_state.witch_antidote = true) ∧
    ((_process_witch_action o t).game_state.witch_poison = true →
      t.game_state.witch_poison = true) := by
  have hbf : ∀ (b : Bool), ¬ b = true → b = false := fun b h => by
    cases b
    · rfl
    · exact absurd rfl h
  by_cases hw : (get_players_by_role t "女巫").isEmpty = true
  · simp [_process_witch_action, hw]
  · by_cases hs : (truthy t.game_state.killed_tonight &&
        t.game_state.witch_antidote && o.witchSaveCoin) = true
    · have hs' := hs
      simp only [Bool.and_eq_true] at hs'
      simp [_process_witch_action, hw, hs'.1.1, hs'.1.2, hs'.2]
    · have hs2 := hbf _ hs
      by_cases hp : (t.game_state.witch_poison &&
          decide (t.game_state.saved_tonight ≠
            t.game_state.killed_tonight)) = true
      · have hp2 := hp
        simp only [Bool.and_eq_true, decide_eq_true_eq] at hp2
        cases hct : _choose_poison_target o t with
        | some pt =>
          simp [_process_witch_action, hw, hs2, hp2.1, hp2.2, hct]
        | none =>
          simp [_process_witch_action, hw, hs2, hp2.1, hp2.2, hct]
      · have hp2 : ¬(t.game_state.witch_poison = true ∧
            ¬t.game_state.saved_tonight = t.game_state.killed_tonight) := by
          intro hcon
          exact hp (by simp [hcon.1, hcon.2])
        simp [_process_witch_action, hw, hs2, hp2]

theorem deathStep_game_state (cond : Bool) (nm cause : String)
    (acc : ScenarioState × List String) :
    (deathStep cond nm cause acc).1.game_state = acc.1.game_state := by
  unfold deathStep
  dsimp only
  split_ifs <;> rfl

theorem _process_deaths_game_state (s : ScenarioState) :
    (_process_deaths s).game_state = s.game_state := by
  simp only [_process_deaths]
  split_ifs <;> simp [deathStep_game_state]

theorem process_night_actions_potions (o : NightOracle) (s : ScenarioState) :
    ((process_night_actions o s).game_state.witch_antidote = true →
      s.game_state.witch_antidote = true) ∧
    ((process_night_actions o s).game_state.witch_poison = true →
      s.game_state.witch_poison = true) := by
  by_cases hc : (s.phase ≠ "night" && s.phase ≠ "first_night") = true
  · have hc2 := hc
    simp only [Bool.and_eq_true, decide_eq_true_eq] at hc2
    simp [process_night_actions, hc2.1, hc2.2]
  · have hform : process_night_actions o s =
        _process_deaths (_process_witch_action o (_process_seer_check o
          (_process_werewolf_kill o
            { s with game_state := { s.game_state with
                killed_tonight := none, saved_tonight := none,
                poisoned_tonight := none } }))) := by
      simp only [process_night_actions]
      rw [if_neg hc]
    rw [hform]
    have hkill := _process_werewolf_kill_potions o
      { s with game_state := { s.game_state with
          killed_tonight := none, saved_tonight := none,
          poisoned_tonight := none } }
    have hseer := _process_seer_check_keeps o
      (_process_werewolf_kill o
        { s with game_state := { s.game_state with
            killed_tonight := none, saved_tonight := none,
            poisoned_tonight := none } })
    have hwitch := _process_witch_action_potions o
      (_process_seer_check o (_process_werewolf_kill o
        { s with game_state := { s.game_state with
            killed_tonight := none, saved_tonight := none,
            poisoned_tonight := none } }))
    rw [_process_deaths_game_state]
    constructor
    · intro h
      have h2 := hwitch.1 h
      rw [hseer.2.2.2.2.2] at h2
      rw [hkill.1] at h2
      exact h2
    · intro h
      have h2 := hwitch.2 h
      rw [hseer.2.2.2.2.1] at h2
      rw [hkill.2] at h2
      exact h2

theorem handle_sheriff_election_game_state_potions
    (cands : List GamePlayer) (s : ScenarioState) :
    (handle_sheriff_election cands s).game_state.witch_antidote =
      s.game_state.witch_antidote ∧
    (handle_sheriff_election cands s).game_state.witch_poison =
      s.game_state.witch_poison := by
  unfold handle_sheriff_election
  exact ⟨rfl, rfl⟩

theorem vote_for_sheriff_potions (pick : Nat) (s : ScenarioState) :
    (vote_for_sheriff pick s).game_state.witch_antidote =
      s.game_state.witch_antidote ∧
    (vote_for_sheriff pick s).game_state.witch_poison =
      s.game_state.witch_poison := by
  unfold vote_for_sheriff
  dsimp only
  split_ifs <;> exact ⟨rfl, rfl⟩

theorem engine_voting_potions (o : VoteOracle) (s : ScenarioState) :
    (MultiCharacterEngine.handle_voting_phase o s).game_state.witch_antidote =
      s.game_state.witch_antidote ∧
    (MultiCharacterEngine.handle_voting_phase o s).game_state.witch_poison =
      s.game_state.witch_poison := by
  unfold MultiCharacterEngine.handle_voting_phase
  dsimp only
  split_ifs <;> exact ⟨rfl, rfl⟩

theorem module_voting_game_state (resp : Nat → String)
    (fallbackPick : Nat → Nat) (tiePick : Nat) (s : ScenarioState) :
    (handle_voting_phase resp fallbackPick tiePick s).game_state =
      s.game_state := by
  unfold handle_voting_phase
  dsimp only
  split_ifs <;> rfl

/-- One engine operation, with its random draws existentially packed: each
    constructor is one of the state-mutating entry points of the engine. -/
inductive EngineStep : ScenarioState → ScenarioState → Prop where
  | advance (s : ScenarioState) : EngineStep s (advance_phase s).2
  | checkEnd (s : ScenarioState) : EngineStep s (check_game_end s).2
  | night (o : NightOracle) (s : ScenarioState) :
      EngineStep s (process_night_actions o s)
  | wolfKill (o : NightOracle) (s : ScenarioState) :
      EngineStep s (_process_werewolf_kill o s)
  | seerCheck (o : NightOracle) (s : ScenarioState) :
      EngineStep s (_process_seer_check o s)
  | witchAction (o : NightOracle) (s : ScenarioState) :
      EngineStep s (_process_witch_action o s)
  | deaths (s : ScenarioState) : EngineStep s (_process_deaths s)
  | sheriffElection (cands : List GamePlayer) (s : ScenarioState) :
      EngineStep s (handle_sheriff_election cands s)
  | sheriffVote (pick : Nat) (s : ScenarioState) :
      EngineStep s (vote_for_sheriff pick s)
  | voteEngine (o : VoteOracle) (s : ScenarioState) :
      EngineStep s (MultiCharacterEngine.handle_voting_phase o s)
  | voteModule (resp : Nat → String) (fb : Nat → Nat) (tie : Nat)
      (s : ScenarioState) : EngineStep s (handle_voting_phase resp fb tie s)
  | message (p : GamePlayer) (response : String) (s : ScenarioState) :
      EngineStep s (process_player_message p response s)

theorem engineStep_potions {a b : ScenarioState} (h : EngineStep a b) :
    (b.game_state.witch_antidote = true →
      a.game_state.witch_antidote = true) ∧
    (b.game_state.witch_poison = true → a.game_state.witch_poison = true) := by
  cases h with
  | advance => rw [advance_phase_game_state]; exact ⟨id, id⟩
  | checkEnd => rw [check_game_end_game_state]; exact ⟨id, id⟩
  | night o => exact process_night_actions_potions o a
  | wolfKill o =>
    rw [(_process_werewolf_kill_potions o a).1,
      (_process_werewolf_kill_potions o a).2]
    exact ⟨id, id⟩
  | seerCheck o =>
    rw [(_process_seer_check_keeps o a).2.2.2.2.2,
      (_process_seer_check_keeps o a).2.2.2.2.1]
    exact ⟨id, id⟩
  | witchAction o => exact _process_witch_action_potions o a
  | deaths => rw [_process_deaths_game_state]; exact ⟨id, id⟩
  | sheriffElection cands =>
    rw [(handle_sheriff_election_game_state_potions cands a).1,
      (handle_sheriff_election_game_state_potions cands a).2]
    exact ⟨id, id⟩
  | sheriffVote pick =>
    rw [(vote_for_sheriff_potions pick a).1,
      (vote_for_sheriff_potions pick a).2]
    exact ⟨id, id⟩
  | voteEngine o =>
    rw [(engine_voting_potions o a).1, (engine_voting_potions o a).2]
    exact ⟨id, id⟩
  | voteModule resp fb tie =>
    rw [module_voting_game_state]; exact ⟨id, id⟩
  | message p response => exact ⟨id, id⟩

/-- C9: along any sequence of engine operations each witch potion flag is
    antitone: a potion available at the end was available at every earlier
    point, so each flag can only move from true to false, does so at most
    once across the scenario lifetime, and is never set back to true. -/
theorem witch_potions_monotone (s s' : ScenarioState)
    (h : Relation.ReflTransGen EngineStep s s') :
    (s'.game_state.witch_antidote = true →
      s.game_state.witch_antidote = true) ∧
    (s'.game_state.witch_poison = true →
      s.game_state.witch_poison = true) := by
  induction h with
  | refl => exact ⟨id, id⟩
  | tail hst hstep ih =>
    have hmono := engineStep_potions hstep
    exact ⟨fun h' => ih.1 (hmono.1 h'), fun h' => ih.2 (hmono.2 h')⟩

/-- Witness for witch_potions_monotone along a one-step trace. -/
theorem witch_potions_monotone_witness :
    ((advance_phase freshDemoState).2.game_state.witch_antidote = true →
      freshDemoState.game_state.witch_antidote = true) ∧
    ((advance_phase freshDemoState).2.game_state.witch_poison = true →
      freshDemoState.game_state.witch_poison = true) :=
  witch_potions_monotone freshDemoState (advance_phase freshDemoState).2
    (Relation.ReflTransGen.single (EngineStep.advance freshDemoState))

theorem bool_eq_false {b : Bool} (h : ¬b = true) : b = false := by
  cases b
  · rfl
  · exact absurd rfl h

theorem aliveIndices_lt {players : List GamePlayer} {i : Nat}
    (h : i ∈ aliveIndices players) : i < players.length := by
  unfold aliveIndices at h
  exact List.mem_range.mp (List.mem_filter.mp h).1

theorem aliveIndices_alive {players : List GamePlayer} {i : Nat}
    (h : i ∈ aliveIndices players) :
    (players.getD i default).is_alive = true := by
  unfold aliveIndices at h
  simpa using (List.mem_filter.mp h).2

theorem getD_set_self {α : Type} :
    ∀ (l : List α) (i : Nat) (a d : α), i < l.length →
      (l.set i a).getD i d = a
  | [], i, _, _, h => by simp at h
  | _ :: _, 0, _, _, _ => rfl
  | _ :: xs, i + 1, a, d, h =>
    getD_set_self xs i a d (by simpa using h)

theorem erase_append_self (l : List String) (nm : String) (h : nm ∉ l) :
    (l ++ [nm]).erase nm = l := by
  rw [List.erase_append_right _ h]
  simp

/-- C7: when the day vote eliminates the unrevealed idiot, the elimination
    is reversed: the seat is alive afterwards, its name does not stay in
    eliminatedNames, and the reveal flag is set. -/
theorem idiot_interrupt_spec (o : VoteOracle) (s : ScenarioState) (i : Nat)
    (hi : i = choice (aliveIndices s.players) o.elimPick 0)
    (hnempty : aliveIndices s.players ≠ [])
    (hrole : (s.players.getD i default).role = "白痴")
    (hrev : s.game_state.idiot_revealed = false)
    (helim : (s.players.getD i default).character_name ∉
      s.eliminated_players) :
    ((MultiCharacterEngine.handle_voting_phase o s).players.getD i
        default).is_alive = true ∧
    (s.players.getD i default).character_name ∉
      (MultiCharacterEngine.handle_voting_phase o s).eliminated_players ∧
    (MultiCharacterEngine.handle_voting_phase o s).game_state.idiot_revealed =
      true := by
  subst hi
  have him : choice (aliveIndices s.players) o.elimPick 0 ∈
      aliveIndices s.players := choice_mem _ _ hnempty
  have hlt : choice (aliveIndices s.players) o.elimPick 0 <
      s.players.length := aliveIndices_lt him
  have hec : (aliveIndices s.players).isEmpty = false :=
    bool_eq_false (by simp [List.isEmpty_iff, hnempty])
  unfold MultiCharacterEngine.handle_voting_phase
  simp only [hec, Bool.false_eq_true, if_false]
  dsimp only
  rw [hrole]
  simp only [hrev, String.reduceEq, decide_False, decide_True,
    Bool.false_and, Bool.and_self, Bool.true_and, Bool.and_true,
    Bool.not_false, Bool.false_eq_true, if_false, if_true, reduceIte]
  refine ⟨?_, ?_, trivial⟩
  · rw [List.set_set, getD_set_self _ _ _ _ hlt]
  · rw [erase_append_self _ _ helim]
    exact helim

theorem getD_set_ne {α : Type} :
    ∀ (l : List α) (i j : Nat) (a d : α), j ≠ i →
      (l.set i a).getD j d = l.getD j d
  | [], _, _, _, _, _ => rfl
  | _ :: _, 0, 0, _, _, h => absurd rfl h
  | _ :: _, 0, _ + 1, _, _, _ => rfl
  | _ :: _, _ + 1, 0, _, _, _ => rfl
  | _ :: xs, i + 1, j + 1, a, d, h =>
    getD_set_ne xs i j a d (fun hc => h (by rw [hc]))

theorem mem_aliveIndices {players : List GamePlayer} {i : Nat}
    (hlt : i < players.length)
    (hal : (players.getD i default).is_alive = true) :
    i ∈ aliveIndices players := by
  unfold aliveIndices
  exact List.mem_filter.mpr ⟨List.mem_range.mpr hlt, by simpa using hal⟩

/-- C8: when the day vote eliminates the hunter while the shot is available
    and some other seat lives, the hunter and exactly one further seat (a
    previously living seat with a different character id) end up newly dead,
    and every other seat is untouched. -/
theorem hunter_interrupt_spec (o : VoteOracle) (s : ScenarioState) (i : Nat)
    (hi : i = choice (aliveIndices s.players) o.elimPick 0)
    (hnempty : aliveIndices s.players ≠ [])
    (hrole : (s.players.getD i default).role = "猎人")
    (hcan : s.game_state.hunter_can_shoot = true)
    (j0 : Nat) (hj0lt : j0 < s.players.length)
    (hj0alive : (s.players.getD j0 default).is_alive = true)
    (hj0id : (s.players.getD j0 default).character_id ≠
      (s.players.getD i default).character_id) :
    ∃ j, j ≠ i ∧ j < s.players.length ∧
      (s.players.getD j default).is_alive = true ∧
      (s.players.getD j default).character_id ≠
        (s.players.getD i default).character_id ∧
      ((MultiCharacterEngine.handle_voting_phase o s).players.getD i
          default).is_alive = false ∧
      ((MultiCharacterEngine.handle_voting_phase o s).players.getD j
          default).is_alive = false ∧
      (∀ m, m < s.players.length → m ≠ i → m ≠ j →
        (MultiCharacterEngine.handle_voting_phase o s).players.getD m
          default = s.players.getD m default) := by
  subst hi
  have hec : (aliveIndices s.players).isEmpty = false :=
    bool_eq_false (by simp [List.isEmpty_iff, hnempty])
  unfold MultiCharacterEngine.handle_voting_phase
  simp only [hec, Bool.false_eq_true, if_false]
  dsimp only
  set I := choice (aliveIndices s.players) o.elimPick 0 with hIdef
  have him : I ∈ aliveIndices s.players := choice_mem _ _ hnempty
  have hIlt : I < s.players.length := aliveIndices_lt him
  set hd := ({ s.players.getD I default with is_alive := false } : GamePlayer)
    with hhd
  set players1 := s.players.set I hd with hp1
  set others := (aliveIndices players1).filter
    (fun j => (players1.getD j default).character_id ≠
      (s.players.getD I default).character_id) with hoth
  have hj0ne : j0 ≠ I := by
    intro hcontra
    exact hj0id (by rw [hcontra])
  have hj0s1 : players1.getD j0 default = s.players.getD j0 default := by
    rw [hp1, hhd]
    exact getD_set_ne _ _ _ _ _ hj0ne
  have hj0mem : j0 ∈ aliveIndices players1 :=
    mem_aliveIndices (by rw [hp1]; simpa using hj0lt)
      (by rw [hj0s1]; exact hj0alive)
  have hj0oth : j0 ∈ others := by
    rw [hoth]
    refine List.mem_filter.mpr ⟨hj0mem, ?_⟩
    rw [hj0s1]
    simpa using hj0id
  have hone : others ≠ [] := by
    intro hnil
    rw [hnil] at hj0oth
    exact absurd hj0oth (List.not_mem_nil _)
  have hoe : others.isEmpty = false :=
    bool_eq_false (fun h => hone (List.isEmpty_iff.mp h))
  have hcond1 : ((s.players.getD I default).role = "猎人" &&
      s.game_state.hunter_can_shoot) = true := by
    rw [hrole, hcan]
    decide
  simp only [hcond1, if_true, reduceIte, hoe, Bool.false_eq_true, if_false]
  set J := choice others o.shotPick 0 with hJdef
  have hJmem : J ∈ others := choice_mem _ _ hone
  have hJmem2 : J ∈ (aliveIndices players1).filter
      (fun j => (players1.getD j default).character_id ≠
        (s.players.getD I default).character_id) := hoth ▸ hJmem
  obtain ⟨hJali0, hJid0⟩ := List.mem_filter.mp hJmem2
  have hJaliv : (players1.getD J default).is_alive = true :=
    aliveIndices_alive hJali0
  have hJlt : J < s.players.length := by
    have := aliveIndices_lt hJali0
    rw [hp1] at this
    simpa using this
  have hJne : J ≠ I := by
    intro hcontra
    rw [hcontra, hp1, getD_set_self _ _ _ _ hIlt, hhd] at hJaliv
    simp at hJaliv
  have hJs1 : players1.getD J default = s.players.getD J default := by
    rw [hp1]
    exact getD_set_ne _ _ _ _ _ hJne
  refine ⟨J, hJne, hJlt, ?_, ?_, ?_, ?_, ?_⟩
  · rw [← hJs1]
    exact hJaliv
  · have := hJid0
    rw [hJs1] at this
    simpa using this
  · rw [getD_set_ne _ _ _ _ _ (fun hc => hJne hc.symm), hp1,
      getD_set_self _ _ _ _ hIlt, hhd]
  · rw [getD_set_self _ _ _ _ (by rw [hp1]; simpa using hJlt)]
  · intro m hmlt hmi hmj
    rw [getD_set_ne _ _ _ _ _ hmj, hp1, getD_set_ne _ _ _ _ _ hmi]

/-- Fixed oracle for the voting witnesses. -/
def demoVoteOracle : VoteOracle := { elimPick := 0, shotPick := 0 }

/-- Voting-phase state whose first seat is the unrevealed idiot. -/
def demoIdiotState : ScenarioState :=
  { scenario_type := "werewolf", phase := "voting",
    players :=
      [{ character_id := "i1", character_name := "呆", character_avatar := "",
         role := "白痴" },
       { character_id := "v1", character_name := "乙", character_avatar := "",
         role := "平民" }] }

/-- Witness for idiot_interrupt_spec at the concrete two-seat state. -/
theorem idiot_interrupt_spec_witness :
    ((MultiCharacterEngine.handle_voting_phase demoVoteOracle
        demoIdiotState).players.getD 0 default).is_alive = true ∧
    (demoIdiotState.players.getD 0 default).character_name ∉
      (MultiCharacterEngine.handle_voting_phase demoVoteOracle
        demoIdiotState).eliminated_players ∧
    (MultiCharacterEngine.handle_voting_phase demoVoteOracle
        demoIdiotState).game_state.idiot_revealed = true :=
  idiot_interrupt_spec demoVoteOracle demoIdiotState 0 (by decide) (by decide)
    (by decide) rfl (by decide)

/-- Voting-phase state whose first seat is the hunter. -/
def demoHunterState : ScenarioState :=
  { scenario_type := "werewolf", phase := "voting",
    players :=
      [{ character_id := "h1", character_name := "猎手", character_avatar := "",
         role := "猎人" },
       { character_id := "v1", character_name := "乙", character_avatar := "",
         role := "平民" }] }

/-- Witness for hunter_interrupt_spec at the concrete two-seat state. -/
theorem hunter_interrupt_spec_witness :
    ∃ j, j ≠ 0 ∧ j < demoHunterState.players.length ∧
      (demoHunterState.players.getD j default).is_alive = true ∧
      (demoHunterState.players.getD j default).character_id ≠
        (demoHunterState.players.getD 0 default).character_id ∧
      ((MultiCharacterEngine.handle_voting_phase demoVoteOracle
          demoHunterState).players.getD 0 default).is_alive = false ∧
      ((MultiCharacterEngine.handle_voting_phase demoVoteOracle
          demoHunterState).players.getD j default).is_alive = false ∧
      (∀ m, m < demoHunterState.players.length → m ≠ 0 → m ≠ j →
        (MultiCharacterEngine.handle_voting_phase demoVoteOracle
          demoHunterState).players.getD m default =
          demoHunterState.players.getD m default) :=
  hunter_interrupt_spec demoVoteOracle demoHunterState 0 (by decide)
    (by decide) (by decide) rfl 1 (by decide) (by decide) (by decide)

theorem getD_map_lt {α β : Type} (f : α → β) (l : List α) (i : Nat)
    (hi : i < l.length) (d : β) (d2 : α) :
    (l.map f).getD i d = f (l.getD i d2) := by
  simp [List.getD_eq_getElem?_getD, List.getElem?_map,
    List.getElem?_eq_getElem hi]

theorem flatMap_eq_map {α β : Type} (f : α → List β) (g : α → β) :
    ∀ (l : List α), (∀ x ∈ l, f x = [g x]) → l.flatMap f = l.map g
  | [], _ => rfl
  | x :: xs, h => by
    rw [List.flatMap_cons, List.map_cons, h x (by simp),
      flatMap_eq_map f g xs (fun y hy => h y (by simp [hy]))]
    rfl

theorem exists_image_max {α : Type} (f : α → Nat) :
    ∀ (l : List α), l ≠ [] → ∃ x ∈ l, ∀ y ∈ l, f y ≤ f x
  | [], h => absurd rfl h
  | [x], _ => ⟨x, by simp, by simp⟩
  | x :: y :: ys, _ => by
    obtain ⟨m, hm, hmax⟩ := exists_image_max f (y :: ys) (by simp)
    by_cases hc : f x ≤ f m
    · refine ⟨m, List.mem_cons_of_mem x hm, ?_⟩
      intro z hz
      rcases List.mem_cons.mp hz with hz | hz
      · subst hz; exact hc
      · exact hmax z hz
    · refine ⟨x, by simp, ?_⟩
      intro z hz
      rcases List.mem_cons.mp hz with hz | hz
      · subst hz; exact Nat.le_refl _
      · exact Nat.le_trans (hmax z hz) (Nat.le_of_not_le hc)

/-- The single vote that one seat produces under the conditions of the
    voting loop. -/
def voteOf (alive_players : List GamePlayer) (resp : Nat → String)
    (fallbackPick : Nat → Nat) (ip : Nat × GamePlayer) : String :=
  match voteFromResponse alive_players ip.2 (resp ip.1) with
  | some t => t
  | none =>
    (choice (alive_players.filter
        (fun p => p.character_id ≠ ip.2.character_id))
      (fallbackPick ip.1) default).character_name

theorem other_players_ne_nil {alive_players : List GamePlayer}
    {p : GamePlayer} (hlen : 2 ≤ alive_players.length)
    (hids : (alive_players.map (fun q => q.character_id)).Nodup)
    (hp : p ∈ alive_players) :
    alive_players.filter (fun q => q.character_id ≠ p.character_id) ≠ [] := by
  intro hnil
  have hall : ∀ q ∈ alive_players, q.character_id = p.character_id := by
    intro q hq
    have := List.filter_eq_nil_iff.mp hnil q hq
    simpa using this
  match alive_players, hlen, hids, hall with
  | a :: b :: rest, _, hids2, hall2 =>
    have ha := hall2 a (by simp)
    have hb := hall2 b (by simp)
    simp only [List.map_cons, List.nodup_cons] at hids2
    exact hids2.1 (by
      rw [ha, ← hb]
      simp)

theorem castVotes_eq_map (alive_players : List GamePlayer)
    (resp : Nat → String) (fallbackPick : Nat → Nat)
    (hlen : 2 ≤ alive_players.length)
    (hresp : ∀ i, i < alive_players.length → resp i ≠ "") :
    castVotes alive_players resp fallbackPick =
      alive_players.enum.map (voteOf alive_players resp fallbackPick) := by
  unfold castVotes
  apply flatMap_eq_map
  intro ip hip
  have hlt : ip.1 < alive_players.length := by
    have h1 := List.mem_enum_iff_getElem?.mp hip
    obtain ⟨hw, -⟩ := List.getElem?_eq_some.mp h1
    exact hw
  have hne := hresp ip.1 hlt
  have hie : (resp ip.1).isEmpty = false := by
    cases h : (resp ip.1).isEmpty
    · rfl
    · exact absurd ((String.isEmpty_iff _).mp h) hne
  unfold voteOf
  cases hv : voteFromResponse alive_players ip.2 (resp ip.1) with
  | some t => simp [hie, hv]
  | none =>
    have h1 : 1 < alive_players.length := Nat.lt_of_lt_of_le Nat.one_lt_two hlen
    simp [hie, hv, h1]

/-- C6: in day-vote resolution every living seat with a non-empty statement
    casts exactly one vote: the first other living seat whose name occurs as
    a substring of the statement, or else an oracle-chosen living target
    excluding itself; votes are tallied per name and the eliminated seat is
    a name of maximal vote count, appended to eliminated_players, its first
    living seat flipped dead. -/
theorem resolve_day_vote_spec (resp : Nat → String) (fallbackPick : Nat → Nat)
    (tiePick : Nat) (s : ScenarioState)
    (hlen : 2 ≤ (s.players.filter (fun p => p.is_alive)).length)
    (hresp : ∀ i, i < (s.players.filter (fun p => p.is_alive)).length →
      resp i ≠ "")
    (hids : ((s.players.filter (fun p => p.is_alive)).map
      (fun q => q.character_id)).Nodup)
    (hnames : ∀ p ∈ s.players.filter (fun p => p.is_alive),
      p.character_name ≠ "") :
    (castVotes (s.players.filter (fun p => p.is_alive)) resp
        fallbackPick).length =
      (s.players.filter (fun p => p.is_alive)).length ∧
    (∀ i, i < (s.players.filter (fun p => p.is_alive)).length →
      ∃ q ∈ s.players.filter (fun p => p.is_alive),
        q.character_id ≠ ((s.players.filter (fun p => p.is_alive)).getD i
          default).character_id ∧
        (castVotes (s.players.filter (fun p => p.is_alive)) resp
          fallbackPick).getD i "" = q.character_name ∧
        (containsSub q.character_name (resp i) = true ∨
          ∀ q2 ∈ s.players.filter (fun p => p.is_alive),
            q2.character_id ≠ ((s.players.filter (fun p => p.is_alive)).getD i
              default).character_id →
            containsSub q2.character_name (resp i) = false)) ∧
    ∃ nm ∈ castVotes (s.players.filter (fun p => p.is_alive)) resp
        fallbackPick,
      (∃ q ∈ s.players.filter (fun p => p.is_alive),
        nm = q.character_name) ∧
      (∀ m ∈ castVotes (s.players.filter (fun p => p.is_alive)) resp
          fallbackPick,
        (castVotes (s.players.filter (fun p => p.is_alive)) resp
          fallbackPick).count m ≤
        (castVotes (s.players.filter (fun p => p.is_alive)) resp
          fallbackPick).count nm) ∧
      (handle_voting_phase resp fallbackPick tiePick s).eliminated_players =
        s.eliminated_players ++ [nm] ∧
      (handle_voting_phase resp fallbackPick tiePick s).players =
        (killFirstAliveByName s.players nm).1 := by
  set alive := s.players.filter (fun p => p.is_alive) with halive
  have hcv := castVotes_eq_map alive resp fallbackPick hlen hresp
  have hvlen : (castVotes alive resp fallbackPick).length = alive.length := by
    rw [hcv, List.length_map, List.enum_length]
  have hseat : ∀ i, i < alive.length →
      ∃ q ∈ alive, q.character_id ≠ (alive.getD i default).character_id ∧
        (castVotes alive resp fallbackPick).getD i "" = q.character_name ∧
        (containsSub q.character_name (resp i) = true ∨
          ∀ q2 ∈ alive,
            q2.character_id ≠ (alive.getD i default).character_id →
            containsSub q2.character_name (resp i) = false) := by
    intro i hi
    have hienum : i < alive.enum.length := by
      rw [List.enum_length]; exact hi
    have hvote : (castVotes alive resp fallbackPick).getD i "" =
        voteOf alive resp fallbackPick (i, alive.getD i default) := by
      rw [hcv, getD_map_lt (voteOf alive resp fallbackPick) alive.enum i
        hienum "" ((0 : Nat), (default : GamePlayer))]
      congr 1
      rw [List.getD_eq_getElem?_getD, List.getElem?_eq_getElem hienum,
        Option.getD_some, List.getElem_enum, List.getD_eq_getElem?_getD,
        List.getElem?_eq_getElem hi, Option.getD_some]
    set p := alive.getD i default with hp
    have hpm : p ∈ alive := by
      rw [hp, List.getD_eq_getElem?_getD, List.getElem?_eq_getElem hi,
        Option.getD_some]
      exact List.getElem_mem hi
    cases hvr : voteFromResponse alive p (resp i) with
    | some t =>
      have hvr0 := hvr
      unfold voteFromResponse at hvr
      cases hf : alive.find? (fun q => q.character_id ≠ p.character_id &&
          containsSub q.character_name (resp i)) with
      | none => rw [hf] at hvr; simp at hvr
      | some q =>
        rw [hf] at hvr
        simp only [Option.map_some'] at hvr
        have ht : q.character_name = t := by injection hvr
        have hqmem := List.mem_of_find?_eq_some hf
        have hqpred := List.find?_some hf
        simp only [Bool.and_eq_true, decide_eq_true_eq] at hqpred
        refine ⟨q, hqmem, hqpred.1, ?_, Or.inl hqpred.2⟩
        rw [hvote]
        unfold voteOf
        dsimp only
        rw [hvr0, ← ht]
    | none =>
      have hvr0 := hvr
      unfold voteFromResponse at hvr
      have hfind : alive.find? (fun q => q.character_id ≠ p.character_id &&
          containsSub q.character_name (resp i)) = none := by
        cases hf : alive.find? (fun q => q.character_id ≠ p.character_id &&
            containsSub q.character_name (resp i)) with
        | none => rfl
        | some q => rw [hf] at hvr; simp at hvr
      have hnone := List.find?_eq_none.mp hfind
      have hone := other_players_ne_nil hlen hids hpm
      have hq := choice_mem (fallbackPick i) default hone
      have hqf := List.mem_filter.mp hq
      refine ⟨choice (alive.filter
          (fun q => q.character_id ≠ p.character_id)) (fallbackPick i)
          default, hqf.1, by simpa using hqf.2, ?_, Or.inr ?_⟩
      · rw [hvote]
        unfold voteOf
        dsimp only
        rw [hvr0]
      · intro q2 hq2 hq2id
        have hnp := hnone q2 hq2
        simp only [Bool.and_eq_true, decide_eq_true_eq, not_and] at hnp
        exact bool_eq_false (hnp hq2id)
  have hvne : castVotes alive resp fallbackPick ≠ [] := by
    intro h
    rw [h] at hvlen
    simp at hvlen
    omega
  set votes := castVotes alive resp fallbackPick with hvotes
  obtain ⟨nm0, hnm0mem, hnm0max⟩ :=
    exists_image_max (fun m => votes.count m) votes hvne
  set cands := votes.dedup.filter
    (fun n => votes.all (fun m => votes.count m ≤ votes.count n)) with hcands
  have hcand : nm0 ∈ cands := by
    rw [hcands]
    refine List.mem_filter.mpr ⟨List.mem_dedup.mpr hnm0mem, ?_⟩
    simp only [List.all_eq_true]
    intro m hm
    exact decide_eq_true (hnm0max m hm)
  have hcne : cands ≠ [] := List.ne_nil_of_mem hcand
  set nm := choice cands tiePick "" with hnm
  have hnmem : nm ∈ cands := choice_mem tiePick "" hcne
  rw [hcands] at hnmem
  obtain ⟨hnm_dedup, hnm_all⟩ := List.mem_filter.mp hnmem
  have hnm_votes : nm ∈ votes := List.mem_dedup.mp hnm_dedup
  have hnm_max : ∀ m ∈ votes, votes.count m ≤ votes.count nm := by
    intro m hm
    exact of_decide_eq_true (List.all_eq_true.mp hnm_all m hm)
  obtain ⟨j, hj, hjv⟩ := List.getElem_of_mem hnm_votes
  have hjlen : j < alive.length := by
    rw [← hvlen]; exact hj
  obtain ⟨q, hqm, hqid, hqv, hqc⟩ := hseat j hjlen
  have hgv : votes.getD j "" = nm := by
    rw [List.getD_eq_getElem?_getD, List.getElem?_eq_getElem hj,
      Option.getD_some, hjv]
  have hnmq : nm = q.character_name := by
    rw [← hgv, hqv]
  have hnm_ne : nm ≠ "" := by
    rw [hnmq]; exact hnames q hqm
  have hnmie : nm.isEmpty = false := by
    cases h : nm.isEmpty
    · rfl
    · exact absurd ((String.isEmpty_iff _).mp h) hnm_ne
  have hvie : votes.isEmpty = false := by
    cases h : votes.isEmpty
    · rfl
    · exact absurd (List.isEmpty_iff.mp h) hvne
  have h1 : ¬votes.isEmpty = true := by
    rw [hvie]; exact Bool.false_ne_true
  have h2 : ¬nm.isEmpty = true := by
    rw [hnmie]; exact Bool.false_ne_true
  have hresult : handle_voting_phase resp fallbackPick tiePick s =
      { s with players := (killFirstAliveByName s.players nm).1,
               eliminated_players := s.eliminated_players ++ [nm] } := by
    unfold handle_voting_phase
    dsimp only
    rw [← halive, ← hvotes, ← hcands, ← hnm]
    rw [if_neg h1, if_neg h2]
  exact ⟨hvlen, hseat, nm, hnm_votes, ⟨q, hqm, hnmq⟩, hnm_max,
    by rw [hresult], by rw [hresult]⟩

/-- Statement oracle for the demo vote: every seat says the same sentence,
    which contains the name of the second seat. -/
def demoC6Resp : Nat → String := fun _ => "我投乙"

def demoC6Fb : Nat → Nat := fun _ => 0

/-- Voting-day state with two living seats of distinct ids and names. -/
def demoC6State : ScenarioState :=
  { scenario_type := "werewolf", phase := "voting",
    players :=
      [{ character_id := "a1", character_name := "甲", character_avatar := "",
         role := "平民" },
       { character_id := "b1", character_name := "乙", character_avatar := "",
         role := "平民" }] }

/-- Witness for resolve_day_vote_spec at the concrete two-seat state. -/
theorem resolve_day_vote_spec_witness :
    (castVotes (demoC6State.players.filter (fun p => p.is_alive)) demoC6Resp
        demoC6Fb).length =
      (demoC6State.players.filter (fun p => p.is_alive)).length ∧
    (∀ i, i < (demoC6State.players.filter (fun p => p.is_alive)).length →
      ∃ q ∈ demoC6State.players.filter (fun p => p.is_alive),
        q.character_id ≠
          ((demoC6State.players.filter (fun p => p.is_alive)).getD i
            default).character_id ∧
        (castVotes (demoC6State.players.filter (fun p => p.is_alive))
          demoC6Resp demoC6Fb).getD i "" = q.character_name ∧
        (containsSub q.character_name (demoC6Resp i) = true ∨
          ∀ q2 ∈ demoC6State.players.filter (fun p => p.is_alive),
            q2.character_id ≠
              ((demoC6State.players.filter (fun p => p.is_alive)).getD i
                default).character_id →
            containsSub q2.character_name (demoC6Resp i) = false)) ∧
    ∃ nm ∈ castVotes (demoC6State.players.filter (fun p => p.is_alive))
        demoC6Resp demoC6Fb,
      (∃ q ∈ demoC6State.players.filter (fun p => p.is_alive),
        nm = q.character_name) ∧
      (∀ m ∈ castVotes (demoC6State.players.filter (fun p => p.is_alive))
          demoC6Resp demoC6Fb,
        (castVotes (demoC6State.players.filter (fun p => p.is_alive))
          demoC6Resp demoC6Fb).count m ≤
        (castVotes (demoC6State.players.filter (fun p => p.is_alive))
          demoC6Resp demoC6Fb).count nm) ∧
      (handle_voting_phase demoC6Resp demoC6Fb 0
          demoC6State).eliminated_players =
        demoC6State.eliminated_players ++ [nm] ∧
      (handle_voting_phase demoC6Resp demoC6Fb 0 demoC6State).players =
        (killFirstAliveByName demoC6State.players nm).1 :=
  resolve_day_vote_spec demoC6Resp demoC6Fb 0 demoC6State (by decide)
    (fun i _ => by show ("我投乙" : String) ≠ ""; decide) (by decide)
    (by decide)
